import Mathlib

/-!
Verification development for the edgex-golang-sdk order client
(`sdk/order/client.go`).

The Go code is shallowly embedded as executable Lean definitions:

* `shopspring/decimal.Decimal` is embedded as `Dec`, a pair of an
  arbitrary-precision integer coefficient and a decimal exponent — exactly
  the representation the library uses (`value × 10^exp`).  Its operations
  `Mul`, `Ceil`, `IntPart` and the parser `NewFromString` follow the
  library's semantics (exact multiplication, ceiling via Euclidean
  div/mod, truncation toward zero via T-division followed by the int64
  narrowing of the library's return type, decimal-string parsing with
  optional sign, at most one point and an optional exponent part).
* `CreateOrder`'s pre-transport pipeline (look-ups, quantization, nonce
  and expiry derivation, hash-input assembly) is embedded as
  `createOrderPipeline`.
* `CancelOrder`'s endpoint/body selection is embedded as
  `cancelOrderRoute`, and the response classification of both calls as
  `classifyCreateResponse` / `classifyCancelResponse`.

`Dec.toRat` interprets a decimal as the rational number it denotes; the
specification-level statements (upper bounds, truncation, ceilings) are
phrased through this interpretation.
-/

namespace EdgexOrder

/-- Embedding of `shopspring/decimal.Decimal`: the number `value × 10^exp`. -/
structure Dec where
  value : Int
  exp : Int
deriving DecidableEq

/-- The rational number denoted by a `Dec`. -/
def Dec.toRat (d : Dec) : ℚ := (d.value : ℚ) * (10 : ℚ) ^ d.exp

/-- `decimal.Decimal.Mul`: exact product, coefficients multiply and
exponents add. -/
def Dec.Mul (a b : Dec) : Dec := ⟨a.value * b.value, a.exp + b.exp⟩

/-- `decimal.Decimal.Ceil`: for a nonnegative exponent the value is already
integral; otherwise divide the coefficient by `10^(-exp)` with Euclidean
div/mod (Go `big.Int.DivMod`) and add one when the remainder is nonzero. -/
def Dec.Ceil (d : Dec) : Dec :=
  if 0 ≤ d.exp then d
  else
    let e : Int := (10 : Int) ^ (-d.exp).toNat
    ⟨if d.value % e = 0 then d.value / e else d.value / e + 1, 0⟩

/-- The exact (unbounded) integer part `d.rescale(0).value` of a decimal
as a big integer: multiply by `10^exp` when `exp ≥ 0`, otherwise divide
the coefficient by `10^(-exp)` with Go `big.Int.Quo` (T-division). -/
def Dec.intPartBig (d : Dec) : Int :=
  if 0 ≤ d.exp then d.value * (10 : Int) ^ d.exp.toNat
  else Int.tdiv d.value ((10 : Int) ^ (-d.exp).toNat)

/-- Two's-complement narrowing of an unbounded integer into the int64
range — the behavior of Go's `big.Int.Int64` when the value does not fit
in an int64 (the identity on values that do fit). -/
def int64wrap (x : Int) : Int := (x + 2 ^ 63) % 2 ^ 64 - 2 ^ 63

/-- `decimal.Decimal.IntPart` (and `BigInt().Int64()` at source line
122): the exact integer part — `rescale(0).value`, truncating toward
zero via Go `big.Int.Quo` — narrowed to the library's int64 return type
with `big.Int.Int64`, which wraps two's-complement out of range. -/
def Dec.IntPart (d : Dec) : Int := int64wrap d.intPartBig

/-- Numeric value of a decimal digit character, `none` otherwise. -/
def digitVal (c : Char) : Option Nat :=
  if c.isDigit then some (c.toNat - 48) else none

/-- Parse a nonempty all-digit character list as a natural number
(Go `big.Int.SetString` base 10, sign handled by the caller). -/
def parseUnsigned (l : List Char) : Option Nat :=
  match l with
  | [] => none
  | _ => l.foldl (fun acc c => acc.bind fun a => (digitVal c).map fun d => a * 10 + d) (some 0)

/-- Split a character list at the first character satisfying `p`: the part
before it, and the part after it when it occurs. -/
def splitAtFirst (p : Char → Bool) : List Char → List Char × Option (List Char)
  | [] => ([], none)
  | c :: rest =>
    if p c then ([], some rest)
    else
      let (a, b) := splitAtFirst p rest
      (c :: a, b)

/-- Parse a mantissa (optional sign, digits with at most one decimal
point, at least one digit): the signed concatenated coefficient and the
number of fractional digits.  Mirrors `decimal.NewFromString`'s handling
of the part before the exponent marker. -/
def parseMantissa (l : List Char) : Option (Int × Nat) :=
  let (sgn, rest) : Int × List Char :=
    match l with
    | '-' :: r => (-1, r)
    | '+' :: r => (1, r)
    | r => (1, r)
  match splitAtFirst (fun c => c == '.') rest with
  | (ip, none) => (parseUnsigned ip).map fun n => (sgn * n, 0)
  | (ip, some fp) =>
    if fp.contains '.' then none
    else (parseUnsigned (ip ++ fp)).map fun n => (sgn * n, fp.length)

/-- Parse an optionally signed integer (Go `strconv.ParseInt`), used for
the exponent part. -/
def parseSignedInt (l : List Char) : Option Int :=
  match l with
  | '-' :: r => (parseUnsigned r).map fun n => -(n : Int)
  | '+' :: r => (parseUnsigned r).map fun n => (n : Int)
  | r => (parseUnsigned r).map fun n => (n : Int)

/-- `decimal.NewFromString`: split at the first exponent marker `e`/`E`,
parse the mantissa and the optional exponent; the stored exponent is the
exponent part minus the number of fractional digits. -/
def NewFromString (s : String) : Option Dec :=
  match splitAtFirst (fun c => c == 'e' || c == 'E') s.toList with
  | (mant, none) =>
    (parseMantissa mant).map fun vf => ⟨vf.1, -(vf.2 : Int)⟩
  | (mant, some ex) =>
    (parseSignedInt ex).bind fun exponent =>
      (parseMantissa mant).map fun vf => ⟨vf.1, exponent - (vf.2 : Int)⟩

/-- Numeric value of a hexadecimal digit character, `none` otherwise. -/
def hexDigitVal (c : Char) : Option Nat :=
  if c.isDigit then some (c.toNat - 48)
  else if 'a' ≤ c ∧ c ≤ 'f' then some (c.toNat - 97 + 10)
  else if 'A' ≤ c ∧ c ≤ 'F' then some (c.toNat - 65 + 10)
  else none

/-- Parse a nonempty all-hex-digit character list as a natural number. -/
def parseHexUnsigned (l : List Char) : Option Nat :=
  match l with
  | [] => none
  | _ => l.foldl (fun acc c => acc.bind fun a => (hexDigitVal c).map fun d => a * 16 + d) (some 0)

/-- Drop a leading `0x`/`0X` marker from a hexadecimal literal. -/
def dropHexMarker : List Char → List Char
  | '0' :: 'x' :: rest => rest
  | '0' :: 'X' :: rest => rest
  | l => l

/-- Modelled from the spec: `internal.HexToBigInteger` (the `internal`
package is not part of the supplied source) parses an asset resolution
factor from its hexadecimal source representation, failing when it cannot
be parsed. -/
def HexToBigInteger (s : String) : Option Int :=
  (parseHexUnsigned (dropHexMarker s.toList)).map fun n => (n : Int)

/-- Modelled from the spec: `internal.CalcNonce` (the `internal` package
is not part of the supplied source) applies a fixed deterministic
hash/transform to the client order identifier — the same identifier always
yields the same nonce.  We model it as a concrete deterministic polynomial
hash of the identifier's characters. -/
def CalcNonce (clientOrderId : String) : Int :=
  ((clientOrderId.toList.foldl (fun a c => (a * 31 + c.toNat) % 4294967296) 7 : Nat) : Int)

/-- The ordered hash-commitment input tuple assembled by `CreateOrder`,
with fields in the exact order of the `internal.CalcLimitOrderHash` call:
synthetic asset id, quote asset id for the collateral leg, quote asset id
for the fee leg, the buy flag, the synthetic integer amount, the
collateral integer amount, the scaled fee cap, the nonce, the account
identifier and the hour-bucketed expiry. -/
structure HashInput where
  syntheticAssetId : String
  collateralAssetId : String
  feeAssetId : String
  isBuy : Bool
  amountSynthetic : Int
  amountCollateral : Int
  maxAmountFee : Int
  nonce : Int
  accountId : Int
  expireHour : Int
deriving DecidableEq

/-- A fixed-width message hash over a commitment tuple. -/
structure MessageHash where
  input : HashInput
deriving DecidableEq

/-- Modelled from the spec: `internal.CalcLimitOrderHash` (the `internal`
package is not part of the supplied source) maps the ordered commitment
tuple to a fixed-width MessageHash.  The hash algorithm is opaque to the
order client; we model the hash as a wrapper around its preimage, so
equal tuples give equal hashes. -/
def CalcLimitOrderHash (inp : HashInput) : MessageHash := ⟨inp⟩

/-- Modelled from the spec: the wire value of the immediate-or-cancel
time-in-force constant (`types.go` is not part of the supplied source). -/
def TimeInForceImmediateOrCancel : String := "IMMEDIATE_OR_CANCEL"

/-- Modelled from the spec: the wire value of the good-til-cancel
time-in-force constant (`types.go` is not part of the supplied source). -/
def TimeInForceGoodTilCancel : String := "GOOD_TIL_CANCEL"

/-- Modelled from the spec: the order type enumeration (`types.go` is not
part of the supplied source); `CreateOrder` switches on the market and
limit constants, any other value falls through. -/
inductive OrderType
  | market
  | limit
  | other
deriving DecidableEq

/-- Modelled from the spec: `metadata.Contract` fields read by
`CreateOrder` (the `metadata` package is not part of the supplied
source). -/
structure Contract where
  ContractId : String
  QuoteCoinId : String
  StarkExResolution : String
  DefaultTakerFeeRate : String
  StarkExSyntheticAssetId : String
deriving DecidableEq

/-- Modelled from the spec: `metadata.Coin` fields read by `CreateOrder`. -/
structure Coin where
  CoinId : String
  StarkExResolution : String
  StarkExAssetId : String
deriving DecidableEq

/-- Modelled from the spec: `metadata.MetaData` as supplied to
`CreateOrder` — a contract list and a coin list. -/
structure MetaData where
  ContractList : List Contract
  CoinList : List Coin
deriving DecidableEq

/-- Modelled from the spec: the `CreateOrderParams` fields read by
`CreateOrder` (`types.go` is not part of the supplied source).  The
expiration instant is carried as integer milliseconds since the epoch
(Go `time.Time` / `UnixMilli`); the Go field `Type` is embedded as `Typ`
because `Type` is reserved in Lean. -/
structure CreateOrderParams where
  ContractId : String
  Price : String
  Size : String
  Typ : OrderType
  Side : String
  TimeInForce : String
  ReduceOnly : Bool
  ExpireTime : Int
deriving DecidableEq

/-- The error exits of `CreateOrder`'s pre-transport pipeline, one per
`return nil, fmt.Errorf(...)` site. -/
inductive OrderError
  | contractNotFound (contractId : String)
  | coinNotFound (coinId : String)
  | invalidSyntheticFactor
  | invalidShiftFactor
  | invalidSize
  | invalidFeeRate
deriving DecidableEq

/-- The default time-in-force selection at the top of `CreateOrder`:
only an empty caller value is replaced, market orders get
immediate-or-cancel, limit orders get good-til-cancel, any other order
type falls through the switch and stays empty. -/
def defaultTimeInForce (tif : String) (ty : OrderType) : String :=
  if tif = "" then
    match ty with
    | .market => TimeInForceImmediateOrCancel
    | .limit => TimeInForceGoodTilCancel
    | .other => ""
  else tif

/-- The linear scan of `metadata.ContractList` for the requested
contract identifier. -/
def findContract (l : List Contract) (contractId : String) : Option Contract :=
  l.find? fun c => c.ContractId == contractId

/-- The linear scan of `metadata.CoinList` for the contract's quote coin
identifier. -/
def findCoin (l : List Coin) (coinId : String) : Option Coin :=
  l.find? fun c => c.CoinId == coinId

/-- The fallback fee rate `decimal.NewFromString("0.001")` used when the
contract specifies no taker fee rate (the parse error is discarded in the
source). -/
def defaultFeeRate : Dec := (NewFromString "0.001").getD ⟨0, 0⟩

/-- Line 106 of the source: the decimal fee estimate
`size.Mul(l2Price).Mul(feeRate)` rounded up to an integer with `Ceil`. -/
def computeLimitFee (size l2Price feeRate : Dec) : Dec :=
  ((size.Mul l2Price).Mul feeRate).Ceil

/-- Line 107 of the source: the ceiled fee scaled by the quote-coin
resolution factor, `limitFee.Mul(shiftFactor)`. -/
def computeMaxAmountFee (size l2Price feeRate shiftFactor : Dec) : Dec :=
  (computeLimitFee size l2Price feeRate).Mul shiftFactor

/-- Line 90 of the source: `size.Mul(syntheticFactor).IntPart()`. -/
def amountSyntheticOf (size syntheticFactor : Dec) : Int :=
  (size.Mul syntheticFactor).IntPart

/-- Line 91 of the source: `valueDm.Mul(shiftFactor).IntPart()` with
`valueDm = l2Price.Mul(size)`. -/
def amountCollateralOf (l2Price size shiftFactor : Dec) : Int :=
  ((l2Price.Mul size).Mul shiftFactor).IntPart

/-- Milliseconds per hour, the bucket width of the settlement expiry. -/
def millisPerHour : Int := 60 * 60 * 1000

/-- Line 112 of the source: the settlement expiry in milliseconds,
`params.ExpireTime.Add(time.Hour * 9 * 24).UnixMilli()` — the caller's
instant plus nine days. -/
def l2ExpireTimeOf (expireTimeMs : Int) : Int :=
  expireTimeMs + 9 * 24 * 60 * 60 * 1000

/-- Line 113 of the source: `l2ExpireTime / (60 * 60 * 1000)` — Go's
`/` on integers truncates toward zero, which is `Int.tdiv`. -/
def l2ExpireHourOf (expireTimeMs : Int) : Int :=
  Int.tdiv (l2ExpireTimeOf expireTimeMs) millisPerHour

/-- Everything `CreateOrder` derives before the transport call: the
transmitted time-in-force and price strings, the client order id, nonce,
both expiry representations, the decimal notional, the quantized integer
amounts, the ceiled and scaled fee caps, and the assembled hash input
with its message hash. -/
structure PipelineOutput where
  timeInForce : String
  priceField : String
  clientOrderId : String
  nonce : Int
  l2ExpireTime : Int
  l2ExpireHour : Int
  valueDm : Dec
  amountSynthetic : Int
  amountCollateral : Int
  limitFee : Dec
  maxAmountFee : Dec
  hashInput : HashInput
  msgHash : MessageHash
deriving DecidableEq

/-- The pre-transport pipeline of `CreateOrder` (source lines 31-151):
default time-in-force selection, contract and coin lookup, resolution
parsing, size parsing, quantization, fee-rate resolution, fee ceiling and
scaling, nonce and expiry derivation, and hash-input assembly.
`clientOrderId` is the value produced by `internal.GetRandomClientId()`,
an external randomness source outside the supplied source files; it is
passed to the pipeline as an explicit oracle input. -/
def createOrderPipeline (accountId : Int) (params : CreateOrderParams)
    (metadata : MetaData) (l2Price : Dec) (clientOrderId : String) :
    Except OrderError PipelineOutput :=
  let tif := defaultTimeInForce params.TimeInForce params.Typ
  match findContract metadata.ContractList params.ContractId with
  | none => .error (.contractNotFound params.ContractId)
  | some contract =>
  match findCoin metadata.CoinList contract.QuoteCoinId with
  | none => .error (.coinNotFound contract.QuoteCoinId)
  | some quoteCoin =>
  match HexToBigInteger contract.StarkExResolution with
  | none => .error .invalidSyntheticFactor
  | some syntheticFactorBig =>
  match HexToBigInteger quoteCoin.StarkExResolution with
  | none => .error .invalidShiftFactor
  | some shiftFactorBig =>
  let syntheticFactor : Dec := ⟨syntheticFactorBig, 0⟩
  let shiftFactor : Dec := ⟨shiftFactorBig, 0⟩
  match NewFromString params.Size with
  | none => .error .invalidSize
  | some size =>
  let valueDm := l2Price.Mul size
  let amountSynthetic := amountSyntheticOf size syntheticFactor
  let amountCollateral := amountCollateralOf l2Price size shiftFactor
  match (if contract.DefaultTakerFeeRate == "" then some defaultFeeRate
         else NewFromString contract.DefaultTakerFeeRate) with
  | none => .error .invalidFeeRate
  | some feeRate =>
  let limitFee := computeLimitFee size l2Price feeRate
  let maxAmountFee := computeMaxAmountFee size l2Price feeRate shiftFactor
  let nonce := CalcNonce clientOrderId
  let l2ExpireTime := l2ExpireTimeOf params.ExpireTime
  let l2ExpireHour := l2ExpireHourOf params.ExpireTime
  let hashInput : HashInput :=
    { syntheticAssetId := contract.StarkExSyntheticAssetId
      collateralAssetId := quoteCoin.StarkExAssetId
      feeAssetId := quoteCoin.StarkExAssetId
      isBuy := params.Side == "BUY"
      amountSynthetic := amountSynthetic
      amountCollateral := amountCollateral
      maxAmountFee := maxAmountFee.IntPart
      nonce := nonce
      accountId := accountId
      expireHour := l2ExpireHour }
  .ok { timeInForce := tif
        priceField := params.Price
        clientOrderId := clientOrderId
        nonce := nonce
        l2ExpireTime := l2ExpireTime
        l2ExpireHour := l2ExpireHour
        valueDm := valueDm
        amountSynthetic := amountSynthetic
        amountCollateral := amountCollateral
        limitFee := limitFee
        maxAmountFee := maxAmountFee
        hashInput := hashInput
        msgHash := CalcLimitOrderHash hashInput }

/-- Modelled from the spec: the `CancelOrderParams` fields read by
`CancelOrder` (`types.go` is not part of the supplied source). -/
structure CancelOrderParams where
  OrderId : String
  ClientId : String
  ContractId : String
deriving DecidableEq

/-- The request body assembled by `CancelOrder`, one constructor per
branch: the account id with an order-id list, a client-order-id list, or
a contract-id filter list. -/
inductive CancelBody
  | byOrderId (accountId : String) (orderIdList : List String)
  | byClientOrderId (accountId : String) (clientOrderIdList : List String)
  | cancelAll (accountId : String) (filterContractIdList : List String)
deriving DecidableEq

/-- The endpoint/body selection of `CancelOrder` (source lines 181-207):
first non-empty of `OrderId`, `ClientId`, `ContractId` wins; the first
two endpoints are prefixed with the client's base URL, the cancel-all
endpoint is the bare path; all three empty is an error and no request is
built. -/
def cancelOrderRoute (baseURL : String) (accountId : Int)
    (params : CancelOrderParams) : Except String (String × CancelBody) :=
  let accountID := toString accountId
  if params.OrderId ≠ "" then
    .ok (baseURL ++ "/api/v1/private/order/cancelOrderById",
         .byOrderId accountID [params.OrderId])
  else if params.ClientId ≠ "" then
    .ok (baseURL ++ "/api/v1/private/order/cancelOrderByClientOrderId",
         .byClientOrderId accountID [params.ClientId])
  else if params.ContractId ≠ "" then
    .ok ("/api/v1/private/order/cancelAllOrder",
         .cancelAll accountID [params.ContractId])
  else .error "must provide either OrderId, ClientId, or ContractId"

/-- Modelled from the spec: the parsed `ResultCreateOrder` envelope
(`types.go` is not part of the supplied source) — a status code,
structured error parameters, an optional error message, and the typed
payload, here abstracted as a string. -/
structure ResultCreateOrder where
  Code : String
  ErrorParam : List (String × String)
  ErrorMsg : String
  payload : String
deriving DecidableEq

/-- The rejection values `CreateOrder` builds from a non-success
envelope: with the error message when one is present (source line 172),
otherwise from the code and error parameters alone (source line 174). -/
inductive RequestRejected
  | withMsg (errorMsg : String) (code : String) (errorParam : List (String × String))
  | codeOnly (code : String) (errorParam : List (String × String))
deriving DecidableEq

/-- The response classification at the end of `CreateOrder` (source lines
170-177): any code other than `"SUCCESS"` is a rejection carrying the
code, the error parameters, and the error message when non-empty;
otherwise the envelope is returned as the successful result. -/
def classifyCreateResponse (r : ResultCreateOrder) :
    Except RequestRejected ResultCreateOrder :=
  if r.Code ≠ "SUCCESS" then
    if r.ErrorMsg ≠ "" then .error (.withMsg r.ErrorMsg r.Code r.ErrorParam)
    else .error (.codeOnly r.Code r.ErrorParam)
  else .ok r

/-- The generic `map[string]interface{}` envelope `CancelOrder` decodes:
the `"code"` entry when present as a string, plus any error message,
error parameters and remaining fields the exchange supplied. -/
structure CancelResult where
  code : Option String
  errorMsg : Option String
  errorParam : Option String
  rest : List (String × String)
deriving DecidableEq

/-- The rejection value `CancelOrder` builds from a non-success envelope
(source line 226): it is a function of the status code alone. -/
inductive CancelRejected
  | rejected (code : String)
deriving DecidableEq

/-- The response classification at the end of `CancelOrder` (source lines
225-227): only when a string `"code"` entry is present and differs from
`"SUCCESS"` is the response rejected, carrying the code alone; otherwise
the raw envelope is returned as the successful result. -/
def classifyCancelResponse (r : CancelResult) :
    Except CancelRejected CancelResult :=
  match r.code with
  | some code => if code ≠ "SUCCESS" then .error (.rejected code) else .ok r
  | none => .ok r

/-- Truncation toward zero of a rational: floor for nonnegative values,
ceiling for negative ones.  This is the specification-side meaning of
converting a scaled decimal to an integer. -/
def ratTrunc (x : ℚ) : Int := if 0 ≤ x then ⌊x⌋ else ⌈x⌉

/-- A concrete contract used to instantiate proved theorems: resolution
`0xf4240` is `10^6`. -/
def testContract : Contract :=
  { ContractId := "10000001"
    QuoteCoinId := "1000"
    StarkExResolution := "0xf4240"
    DefaultTakerFeeRate := "0.00055"
    StarkExSyntheticAssetId := "0x4254432d3130" }

/-- A concrete quote coin used to instantiate proved theorems: resolution
`0x1dcd6500` is `5 × 10^8`. -/
def testCoin : Coin :=
  { CoinId := "1000"
    StarkExResolution := "0x1dcd6500"
    StarkExAssetId := "0x02" }

/-- Concrete metadata holding `testContract` and `testCoin`. -/
def testMeta : MetaData := ⟨[testContract], [testCoin]⟩

/-- Concrete order parameters used to instantiate proved theorems. -/
def testParams : CreateOrderParams :=
  { ContractId := "10000001"
    Price := "60000"
    Size := "1.5"
    Typ := .limit
    Side := "BUY"
    TimeInForce := ""
    ReduceOnly := false
    ExpireTime := 1700000000000 }

/-- A second, different set of concrete order parameters with the same
contract, used to show nonce dependence on the client order id alone. -/
def testParams2 : CreateOrderParams :=
  { ContractId := "10000001"
    Price := "61000"
    Size := "2.25"
    Typ := .market
    Side := "SELL"
    TimeInForce := "FILL_OR_KILL"
    ReduceOnly := true
    ExpireTime := 1800000000000 }

/-- The concrete parameters with an unparseable price string. -/
def badPriceParams : CreateOrderParams :=
  { testParams with Price := "oops" }

/-- A concrete mark price (60000) used to instantiate proved theorems. -/
def testPrice : Dec := ⟨60000, 0⟩

/-- Concrete parameters naming a contract absent from `testMeta`. -/
def unknownContractParams : CreateOrderParams :=
  { testParams with ContractId := "999" }

/-- A concrete contract whose quote coin is absent from `testMeta`. -/
def orphanContract : Contract := { testContract with QuoteCoinId := "777" }

/-- Concrete metadata whose only contract references a missing coin. -/
def orphanMeta : MetaData := ⟨[orphanContract], [testCoin]⟩

/-- A concrete contract with an unparseable taker fee rate. -/
def badFeeContract : Contract := { testContract with DefaultTakerFeeRate := "x?" }

/-- Concrete metadata holding `badFeeContract` and `testCoin`. -/
def badFeeMeta : MetaData := ⟨[badFeeContract], [testCoin]⟩

/-- Concrete parameters with an unparseable size string. -/
def badSizeParams : CreateOrderParams := { testParams with Size := "12..5" }

theorem Dec.toRat_mk_zero (v : Int) : Dec.toRat ⟨v, 0⟩ = (v : ℚ) := by
  simp [Dec.toRat]

theorem Dec.toRat_mul (a b : Dec) : (a.Mul b).toRat = a.toRat * b.toRat := by
  simp only [Dec.toRat, Dec.Mul]
  rw [zpow_add₀ (by norm_num : (10 : ℚ) ≠ 0)]
  push_cast
  ring

theorem Dec.toRat_of_nonneg_exp (d : Dec) (h : 0 ≤ d.exp) :
    d.toRat = ((d.value * (10 : Int) ^ d.exp.toNat : Int) : ℚ) := by
  simp only [Dec.toRat]
  have h10 : (10 : ℚ) ^ d.exp = (10 : ℚ) ^ d.exp.toNat := by
    rw [← zpow_natCast, Int.toNat_of_nonneg h]
  rw [h10]
  push_cast
  ring

theorem Dec.toRat_of_neg_exp (d : Dec) (h : d.exp < 0) :
    d.toRat = (d.value : ℚ) / (((10 : Int) ^ (-d.exp).toNat : Int) : ℚ) := by
  simp only [Dec.toRat]
  have h10 : (10 : ℚ) ^ d.exp = ((((10 : Int) ^ (-d.exp).toNat : Int) : ℚ))⁻¹ := by
    conv_lhs => rw [show d.exp = -(((-d.exp).toNat : ℕ) : ℤ) by omega]
    rw [zpow_neg, zpow_natCast]
    push_cast
    ring_nf
  rw [h10, div_eq_mul_inv]

theorem ceil_intCast_div (v E : Int) (hE : 0 < E) :
    ⌈(v : ℚ) / (E : ℚ)⌉ = if v % E = 0 then v / E else v / E + 1 := by
  have hEq : (0 : ℚ) < (E : ℚ) := by exact_mod_cast hE
  have hvE : E * (v / E) + v % E = v := Int.ediv_add_emod v E
  have hm0 : 0 ≤ v % E := Int.emod_nonneg v (by omega)
  have hmE : v % E < E := Int.emod_lt_of_pos v hE
  have hvEq : (E : ℚ) * ((v / E : Int) : ℚ) + ((v % E : Int) : ℚ) = (v : ℚ) := by
    exact_mod_cast hvE
  by_cases hm : v % E = 0
  · rw [if_pos hm]
    have hdiv : (v : ℚ) / (E : ℚ) = ((v / E : Int) : ℚ) := by
      rw [div_eq_iff (ne_of_gt hEq)]
      have hv' : v = v / E * E := by
        conv_lhs => rw [← hvE]
        rw [hm, add_zero, mul_comm]
      exact_mod_cast hv'
    rw [hdiv, Int.ceil_intCast]
  · rw [if_neg hm, Int.ceil_eq_iff]
    have hm0q : (0 : ℚ) < ((v % E : Int) : ℚ) := by exact_mod_cast (by omega : 0 < v % E)
    have hmEq : ((v % E : Int) : ℚ) < (E : ℚ) := by exact_mod_cast hmE
    constructor
    · push_cast
      rw [lt_div_iff₀ hEq]
      linarith
    · push_cast
      rw [div_le_iff₀ hEq]
      linarith

theorem floor_intCast_div (v E : Int) (hE : 0 < E) :
    ⌊(v : ℚ) / (E : ℚ)⌋ = v / E := by
  obtain ⟨n, rfl⟩ : ∃ n : ℕ, E = (n : ℤ) := ⟨E.toNat, (Int.toNat_of_nonneg hE.le).symm⟩
  exact_mod_cast Rat.floor_intCast_div_natCast v n

theorem Dec.toRat_Ceil (d : Dec) : d.Ceil.toRat = ((⌈d.toRat⌉ : Int) : ℚ) := by
  by_cases h : 0 ≤ d.exp
  · rw [Dec.Ceil, if_pos h]
    conv_rhs => rw [d.toRat_of_nonneg_exp h, Int.ceil_intCast]
    exact d.toRat_of_nonneg_exp h
  · push_neg at h
    have hE : (0 : Int) < (10 : Int) ^ (-d.exp).toNat := by positivity
    rw [Dec.Ceil, if_neg (by omega : ¬ 0 ≤ d.exp), Dec.toRat_mk_zero,
        d.toRat_of_neg_exp h, ceil_intCast_div d.value _ hE]

theorem Dec.intPartBig_eq_ratTrunc (d : Dec) : d.intPartBig = ratTrunc d.toRat := by
  by_cases he : 0 ≤ d.exp
  · rw [Dec.intPartBig, if_pos he, d.toRat_of_nonneg_exp he, ratTrunc]
    by_cases hx : (0 : ℚ) ≤ ((d.value * (10 : Int) ^ d.exp.toNat : Int) : ℚ)
    · rw [if_pos hx, Int.floor_intCast]
    · rw [if_neg hx, Int.ceil_intCast]
  · push_neg at he
    have hE : (0 : Int) < (10 : Int) ^ (-d.exp).toNat := by positivity
    have hEq : (0 : ℚ) < (((10 : Int) ^ (-d.exp).toNat : Int) : ℚ) := by exact_mod_cast hE
    have htr : d.toRat = (d.value : ℚ) / (((10 : Int) ^ (-d.exp).toNat : Int) : ℚ) :=
      d.toRat_of_neg_exp he
    rw [Dec.intPartBig, if_neg (by omega : ¬ 0 ≤ d.exp), ratTrunc]
    by_cases hv : 0 ≤ d.value
    · have hx : 0 ≤ d.toRat := by
        rw [htr]
        exact div_nonneg (by exact_mod_cast hv) hEq.le
      rw [if_pos hx, htr, floor_intCast_div _ _ hE, Int.tdiv_eq_ediv hv hE.le]
    · push_neg at hv
      have hx : ¬ (0 ≤ d.toRat) := by
        push_neg
        rw [htr]
        exact div_neg_of_neg_of_pos (by exact_mod_cast hv) hEq
      rw [if_neg hx, htr]
      have hstep : (d.value : ℚ) / (((10 : Int) ^ (-d.exp).toNat : Int) : ℚ)
          = -(((-d.value : Int) : ℚ) / (((10 : Int) ^ (-d.exp).toNat : Int) : ℚ)) := by
        push_cast
        ring
      rw [hstep, Int.ceil_neg, floor_intCast_div _ _ hE]
      have htd : Int.tdiv d.value ((10 : Int) ^ (-d.exp).toNat)
          = -(Int.tdiv (-d.value) ((10 : Int) ^ (-d.exp).toNat)) := by
        rw [Int.neg_tdiv]
        ring
      rw [htd, Int.tdiv_eq_ediv (by omega : 0 ≤ -d.value) hE.le]

theorem createOrderPipeline_ok_fields (accountId : Int) (params : CreateOrderParams)
    (metadata : MetaData) (l2Price : Dec) (cid : String) (o : PipelineOutput)
    (h : createOrderPipeline accountId params metadata l2Price cid = .ok o) :
    o.nonce = CalcNonce cid ∧ o.clientOrderId = cid
    ∧ o.timeInForce = defaultTimeInForce params.TimeInForce params.Typ
    ∧ o.priceField = params.Price
    ∧ o.l2ExpireTime = l2ExpireTimeOf params.ExpireTime
    ∧ o.l2ExpireHour = l2ExpireHourOf params.ExpireTime
    ∧ o.hashInput.nonce = o.nonce
    ∧ o.hashInput.accountId = accountId
    ∧ o.hashInput.expireHour = o.l2ExpireHour
    ∧ o.msgHash = CalcLimitOrderHash o.hashInput := by
  unfold createOrderPipeline at h
  repeat' split at h
  all_goals first
    | exact Except.noConfusion h
    | (simp only [Except.ok.injEq] at h; subst h; simp)

theorem createOrderPipeline_ok_hash (accountId : Int) (params : CreateOrderParams)
    (metadata : MetaData) (l2Price : Dec) (cid : String)
    (contract : Contract) (quoteCoin : Coin) (o : PipelineOutput)
    (hc : findContract metadata.ContractList params.ContractId = some contract)
    (hq : findCoin metadata.CoinList contract.QuoteCoinId = some quoteCoin)
    (h : createOrderPipeline accountId params metadata l2Price cid = .ok o) :
    o.hashInput
      = { syntheticAssetId := contract.StarkExSyntheticAssetId
          collateralAssetId := quoteCoin.StarkExAssetId
          feeAssetId := quoteCoin.StarkExAssetId
          isBuy := params.Side == "BUY"
          amountSynthetic := o.amountSynthetic
          amountCollateral := o.amountCollateral
          maxAmountFee := o.maxAmountFee.IntPart
          nonce := o.nonce
          accountId := accountId
          expireHour := o.l2ExpireHour }
    ∧ o.msgHash = CalcLimitOrderHash o.hashInput := by
  unfold createOrderPipeline at h
  repeat' split at h
  all_goals first
    | exact Except.noConfusion h
    | (simp only [Except.ok.injEq] at h; subst h; simp_all)

/-- Claim C1: the nonce used in the commitment is a deterministic function
of the client order identifier alone — every successful run of
`CreateOrder`'s pre-transport pipeline produces nonce `CalcNonce cid`
regardless of the other inputs, echoes the client order identifier, and
two invocations on identical inputs (including the identifier produced by
the external randomness source) yield identical outputs, in particular the
same QuantizedOrder fields and MessageHash. -/
theorem createOrder_nonce_deterministic
    (a₁ a₂ : Int) (p₁ p₂ : CreateOrderParams) (m₁ m₂ : MetaData) (q₁ q₂ : Dec) (cid : String)
    (h₁ : (createOrderPipeline a₁ p₁ m₁ q₁ cid).isOk = true)
    (h₂ : (createOrderPipeline a₂ p₂ m₂ q₂ cid).isOk = true) :
    (createOrderPipeline a₁ p₁ m₁ q₁ cid).toOption.map PipelineOutput.nonce
      = some (CalcNonce cid)
    ∧ (createOrderPipeline a₂ p₂ m₂ q₂ cid).toOption.map PipelineOutput.nonce
      = some (CalcNonce cid)
    ∧ (createOrderPipeline a₁ p₁ m₁ q₁ cid).toOption.map PipelineOutput.clientOrderId
      = some cid
    ∧ (createOrderPipeline a₁ p₁ m₁ q₁ cid).toOption.map PipelineOutput.nonce
      = (createOrderPipeline a₂ p₂ m₂ q₂ cid).toOption.map PipelineOutput.nonce
    ∧ (a₁ = a₂ → p₁ = p₂ → m₁ = m₂ → q₁ = q₂ →
        createOrderPipeline a₁ p₁ m₁ q₁ cid = createOrderPipeline a₂ p₂ m₂ q₂ cid) := by
  cases hc₁ : createOrderPipeline a₁ p₁ m₁ q₁ cid with
  | error e =>
    rw [hc₁] at h₁
    simp [Except.isOk, Except.toBool] at h₁
  | ok o₁ =>
    cases hc₂ : createOrderPipeline a₂ p₂ m₂ q₂ cid with
    | error e =>
      rw [hc₂] at h₂
      simp [Except.isOk, Except.toBool] at h₂
    | ok o₂ =>
      obtain ⟨hn₁, hcid₁, -⟩ := createOrderPipeline_ok_fields _ _ _ _ _ _ hc₁
      obtain ⟨hn₂, hcid₂, -⟩ := createOrderPipeline_ok_fields _ _ _ _ _ _ hc₂
      refine ⟨?_, ?_, ?_, ?_, ?_⟩
      · simp [Except.toOption, hn₁]
      · simp [Except.toOption, hn₂]
      · simp [Except.toOption, hcid₁]
      · simp [Except.toOption, hn₁, hn₂]
      · intro ha hp hm hq
        subst ha; subst hp; subst hm; subst hq
        rw [← hc₁, ← hc₂]

/-- Witness for C1: two successful concrete runs with different accounts,
parameters and prices but the same client order identifier agree on the
nonce, which equals `CalcNonce` of that identifier. -/
theorem createOrder_nonce_deterministic_witness :
    (createOrderPipeline 3001 testParams testMeta testPrice "cid-1").toOption.map
        PipelineOutput.nonce = some (CalcNonce "cid-1")
    ∧ (createOrderPipeline 4002 testParams2 testMeta ⟨61000, 0⟩ "cid-1").toOption.map
        PipelineOutput.nonce = some (CalcNonce "cid-1")
    ∧ (createOrderPipeline 3001 testParams testMeta testPrice "cid-1").toOption.map
        PipelineOutput.clientOrderId = some "cid-1"
    ∧ (createOrderPipeline 3001 testParams testMeta testPrice "cid-1").toOption.map
        PipelineOutput.nonce
      = (createOrderPipeline 4002 testParams2 testMeta ⟨61000, 0⟩ "cid-1").toOption.map
        PipelineOutput.nonce
    ∧ ((3001 : Int) = 4002 → testParams = testParams2 → testMeta = testMeta →
        testPrice = ⟨61000, 0⟩ →
        createOrderPipeline 3001 testParams testMeta testPrice "cid-1"
          = createOrderPipeline 4002 testParams2 testMeta ⟨61000, 0⟩ "cid-1") :=
  createOrder_nonce_deterministic 3001 4002 testParams testParams2 testMeta testMeta
    testPrice ⟨61000, 0⟩ "cid-1" (by decide) (by decide)

/-- Claim C2: the fee cap is the decimal ceiling of
`size × price × feeRate` taken before scaling, then multiplied by the
collateral resolution factor with no further truncation, so the scaled
fee cap divided by the collateral resolution is at least the true
unrounded fee. -/
theorem feeCap_upper_bound (size l2Price feeRate : Dec) (shiftFactorZ : Int)
    (hs : 0 ≤ size.toRat) (hp : 0 ≤ l2Price.toRat) (hf : 0 ≤ feeRate.toRat)
    (hr : 0 < shiftFactorZ) :
    (computeLimitFee size l2Price feeRate).toRat
      = ((⌈size.toRat * l2Price.toRat * feeRate.toRat⌉ : Int) : ℚ)
    ∧ (computeMaxAmountFee size l2Price feeRate ⟨shiftFactorZ, 0⟩).toRat
      = (computeLimitFee size l2Price feeRate).toRat * (shiftFactorZ : ℚ)
    ∧ size.toRat * l2Price.toRat * feeRate.toRat
      ≤ (computeMaxAmountFee size l2Price feeRate ⟨shiftFactorZ, 0⟩).toRat
          / (shiftFactorZ : ℚ) := by
  have hprod : ((size.Mul l2Price).Mul feeRate).toRat
      = size.toRat * l2Price.toRat * feeRate.toRat := by
    rw [Dec.toRat_mul, Dec.toRat_mul]
  have h1 : (computeLimitFee size l2Price feeRate).toRat
      = ((⌈size.toRat * l2Price.toRat * feeRate.toRat⌉ : Int) : ℚ) := by
    rw [computeLimitFee, Dec.toRat_Ceil, hprod]
  have h2 : (computeMaxAmountFee size l2Price feeRate ⟨shiftFactorZ, 0⟩).toRat
      = (computeLimitFee size l2Price feeRate).toRat * (shiftFactorZ : ℚ) := by
    rw [computeMaxAmountFee, Dec.toRat_mul, Dec.toRat_mk_zero]
  refine ⟨h1, h2, ?_⟩
  have hZq : (0 : ℚ) < (shiftFactorZ : ℚ) := by exact_mod_cast hr
  rw [h2, h1, mul_div_assoc, div_self (ne_of_gt hZq), mul_one]
  exact Int.le_ceil _

/-- Witness for C2: size 1.5, price 60000, fee rate 0.00055, resolution
5×10^8 — the true fee 49.5 is bounded by the ceiled and scaled cap. -/
theorem feeCap_upper_bound_witness :
    (computeLimitFee ⟨15, -1⟩ ⟨60000, 0⟩ ⟨55, -5⟩).toRat
      = ((⌈Dec.toRat ⟨15, -1⟩ * Dec.toRat ⟨60000, 0⟩ * Dec.toRat ⟨55, -5⟩⌉ : Int) : ℚ)
    ∧ (computeMaxAmountFee ⟨15, -1⟩ ⟨60000, 0⟩ ⟨55, -5⟩ ⟨500000000, 0⟩).toRat
      = (computeLimitFee ⟨15, -1⟩ ⟨60000, 0⟩ ⟨55, -5⟩).toRat * ((500000000 : Int) : ℚ)
    ∧ Dec.toRat ⟨15, -1⟩ * Dec.toRat ⟨60000, 0⟩ * Dec.toRat ⟨55, -5⟩
      ≤ (computeMaxAmountFee ⟨15, -1⟩ ⟨60000, 0⟩ ⟨55, -5⟩ ⟨500000000, 0⟩).toRat
          / ((500000000 : Int) : ℚ) :=
  feeCap_upper_bound ⟨15, -1⟩ ⟨60000, 0⟩ ⟨55, -5⟩ 500000000
    (by simp only [Dec.toRat]; positivity)
    (by simp only [Dec.toRat]; positivity)
    (by simp only [Dec.toRat]; positivity)
    (by norm_num)

theorem ratTrunc_intCast (n : Int) : ratTrunc ((n : Int) : ℚ) = n := by
  rw [ratTrunc]
  by_cases h : (0 : ℚ) ≤ ((n : Int) : ℚ)
  · rw [if_pos h, Int.floor_intCast]
  · rw [if_neg h, Int.ceil_intCast]

theorem int64wrap_eq_self (x : Int) (h1 : -(2 ^ 63) ≤ x) (h2 : x < 2 ^ 63) :
    int64wrap x = x := by
  have e63 : (2 : Int) ^ 63 = 9223372036854775808 := by norm_num
  have e64 : (2 : Int) ^ 64 = 18446744073709551616 := by norm_num
  rw [int64wrap, e63, e64]
  rw [e63] at h1 h2
  omega

/-- Claim C3 counterexample: the quantized amounts are int64 values
(shopspring `IntPart()` returns `big.Int.Int64()` of the exact integer
part), so they wrap out of the int64 range — the parseable size
10000000000000 at synthetic resolution 10^6 yields the wrapped amount
-8446744073709551616, not the claimed truncation 10^19. -/
theorem quantization_wraps_counterexample :
    (NewFromString "10000000000000").map (fun s => amountSyntheticOf s ⟨1000000, 0⟩)
      = some (-8446744073709551616)
    ∧ (NewFromString "10000000000000").map
        (fun s => ratTrunc (s.toRat * Dec.toRat ⟨1000000, 0⟩))
      = some (10 ^ 19)
    ∧ (-8446744073709551616 : Int) ≠ 10 ^ 19 := by
  have hparse : NewFromString "10000000000000" = some ⟨10000000000000, 0⟩ := by decide
  refine ⟨by decide, ?_, by decide⟩
  rw [hparse]
  simp only [Option.map, Option.some.injEq]
  rw [Dec.toRat_mk_zero, Dec.toRat_mk_zero]
  have hmul : ((10000000000000 : Int) : ℚ) * ((1000000 : Int) : ℚ)
      = ((10 ^ 19 : Int) : ℚ) := by norm_num
  rw [hmul, ratTrunc_intCast]

/-- Claim C3 (amended): the synthetic amount equals the int64
two's-complement narrowing of the truncation toward zero of
`size × syntheticResolution`, and the collateral amount the narrowing of
the truncation of `price × size × collateralResolution` — equal to the
truncations themselves whenever those fit in an int64; in particular
size 1.9999999 at resolution 10^6 quantizes to 1999999, not 2000000. -/
theorem quantization_truncates (size syntheticFactor l2Price shiftFactor : Dec) :
    amountSyntheticOf size syntheticFactor
      = int64wrap (ratTrunc (size.toRat * syntheticFactor.toRat))
    ∧ amountCollateralOf l2Price size shiftFactor
      = int64wrap (ratTrunc (l2Price.toRat * size.toRat * shiftFactor.toRat))
    ∧ (∀ x : ℚ, -(2 ^ 63) ≤ ratTrunc x → ratTrunc x < 2 ^ 63 →
        int64wrap (ratTrunc x) = ratTrunc x)
    ∧ (NewFromString "1.9999999").map (fun s => amountSyntheticOf s ⟨1000000, 0⟩)
      = some 1999999 := by
  refine ⟨?_, ?_, fun x h1 h2 => int64wrap_eq_self _ h1 h2, by decide⟩
  · rw [amountSyntheticOf, Dec.IntPart, Dec.intPartBig_eq_ratTrunc, Dec.toRat_mul]
  · rw [amountCollateralOf, Dec.IntPart, Dec.intPartBig_eq_ratTrunc, Dec.toRat_mul,
        Dec.toRat_mul]

/-- Witness for C3 (amended): the in-range equality conjunct discharged
at the concrete truncation 1999999, together with the concrete
quantization it governs. -/
theorem quantization_truncates_witness :
    amountSyntheticOf ⟨19999999, -7⟩ ⟨1000000, 0⟩
      = int64wrap (ratTrunc (Dec.toRat ⟨19999999, -7⟩ * Dec.toRat ⟨1000000, 0⟩))
    ∧ int64wrap (ratTrunc (((1999999 : Int) : ℚ))) = ratTrunc (((1999999 : Int) : ℚ)) :=
  ⟨(quantization_truncates ⟨19999999, -7⟩ ⟨1000000, 0⟩ ⟨0, 0⟩ ⟨0, 0⟩).1,
   (quantization_truncates ⟨19999999, -7⟩ ⟨1000000, 0⟩ ⟨0, 0⟩ ⟨0, 0⟩).2.2.1
     (((1999999 : Int) : ℚ))
     (by rw [ratTrunc_intCast]; norm_num)
     (by rw [ratTrunc_intCast]; norm_num)⟩

/-- Claim C4 counterexample: at the caller-specified expiration instant
T = -777600001 ms the wire expiry is -1 ms; the code's hour bucket (Go's
truncating integer division) is 0, while the claimed floor
⌊-1 / 3600000⌋ is -1, so the claimed formula fails at this input. -/
theorem expiry_floor_counterexample :
    l2ExpireTimeOf (-777600001) = -1
    ∧ l2ExpireHourOf (-777600001) = 0
    ∧ ⌊((l2ExpireTimeOf (-777600001) : Int) : ℚ) / ((millisPerHour : Int) : ℚ)⌋ = -1
    ∧ l2ExpireHourOf (-777600001)
        ≠ ⌊((l2ExpireTimeOf (-777600001) : Int) : ℚ) / ((millisPerHour : Int) : ℚ)⌋ := by
  have hfl : ⌊((l2ExpireTimeOf (-777600001) : Int) : ℚ) / ((millisPerHour : Int) : ℚ)⌋
      = l2ExpireTimeOf (-777600001) / millisPerHour :=
    floor_intCast_div _ _ (by decide)
  refine ⟨by decide, by decide, ?_, ?_⟩
  · rw [hfl]; decide
  · rw [hfl]; decide

/-- Claim C4 (amended): for every caller-specified expiration instant T
the wire expiry is T + 9 days in milliseconds and the hash bucket is the
truncation-toward-zero division of that same wire expiry by 3,600,000
(so the wire expiry reduced to hour granularity is exactly the hash
bucket); whenever the buffered expiry is nonnegative — every expiration
after the epoch — this truncating division coincides with the claimed
floor ⌊(T + 9 days in ms) / 3,600,000⌋. -/
theorem expiry_consistency (t : Int) (h : 0 ≤ l2ExpireTimeOf t) :
    l2ExpireTimeOf t = t + 777600000
    ∧ l2ExpireHourOf t = Int.tdiv (l2ExpireTimeOf t) millisPerHour
    ∧ l2ExpireHourOf t = ⌊((l2ExpireTimeOf t : Int) : ℚ) / ((millisPerHour : Int) : ℚ)⌋ := by
  refine ⟨by norm_num [l2ExpireTimeOf], rfl, ?_⟩
  rw [l2ExpireHourOf, floor_intCast_div _ _ (by decide : (0 : Int) < millisPerHour),
      Int.tdiv_eq_ediv h (by decide)]

/-- Witness for C4 (amended): a concrete post-epoch expiration instant. -/
theorem expiry_consistency_witness :
    l2ExpireTimeOf 1700000000000 = 1700000000000 + 777600000
    ∧ l2ExpireHourOf 1700000000000 = Int.tdiv (l2ExpireTimeOf 1700000000000) millisPerHour
    ∧ l2ExpireHourOf 1700000000000
        = ⌊((l2ExpireTimeOf 1700000000000 : Int) : ℚ) / ((millisPerHour : Int) : ℚ)⌋ :=
  expiry_consistency 1700000000000 (by decide)

/-- Claim C5: on every order intent that reaches hashing, the hash input
tuple is, in this exact order: the synthetic asset identifier, the quote
asset identifier twice (collateral leg and fee leg), the buy flag
(side = "BUY"), the synthetic amount, the collateral amount, the scaled
fee cap, the nonce, the account identifier, and the hour-bucketed expiry;
the message hash is computed from exactly this tuple. -/
theorem hash_commitment_tuple (a : Int) (p : CreateOrderParams) (m : MetaData)
    (q : Dec) (cid : String) (contract : Contract) (coin : Coin)
    (hc : findContract m.ContractList p.ContractId = some contract)
    (hq : findCoin m.CoinList contract.QuoteCoinId = some coin)
    (hok : (createOrderPipeline a p m q cid).isOk = true) :
    (createOrderPipeline a p m q cid).toOption.map PipelineOutput.hashInput
      = (createOrderPipeline a p m q cid).toOption.map (fun o =>
          { syntheticAssetId := contract.StarkExSyntheticAssetId
            collateralAssetId := coin.StarkExAssetId
            feeAssetId := coin.StarkExAssetId
            isBuy := p.Side == "BUY"
            amountSynthetic := o.amountSynthetic
            amountCollateral := o.amountCollateral
            maxAmountFee := o.maxAmountFee.IntPart
            nonce := o.nonce
            accountId := a
            expireHour := o.l2ExpireHour })
    ∧ (createOrderPipeline a p m q cid).toOption.map PipelineOutput.msgHash
      = (createOrderPipeline a p m q cid).toOption.map
          (fun o => CalcLimitOrderHash o.hashInput) := by
  cases hcase : createOrderPipeline a p m q cid with
  | error e =>
    rw [hcase] at hok
    simp [Except.isOk, Except.toBool] at hok
  | ok o =>
    obtain ⟨hh, hmsg⟩ :=
      createOrderPipeline_ok_hash a p m q cid contract coin o hc hq hcase
    refine ⟨?_, ?_⟩
    · simp [Except.toOption, hh]
    · simp [Except.toOption, hmsg]

/-- Witness for C5: the concrete successful run, with the contract and
coin actually found in the metadata. -/
theorem hash_commitment_tuple_witness :
    (createOrderPipeline 3001 testParams testMeta testPrice "cid-1").toOption.map
        PipelineOutput.hashInput
      = (createOrderPipeline 3001 testParams testMeta testPrice "cid-1").toOption.map
          (fun o =>
          { syntheticAssetId := testContract.StarkExSyntheticAssetId
            collateralAssetId := testCoin.StarkExAssetId
            feeAssetId := testCoin.StarkExAssetId
            isBuy := testParams.Side == "BUY"
            amountSynthetic := o.amountSynthetic
            amountCollateral := o.amountCollateral
            maxAmountFee := o.maxAmountFee.IntPart
            nonce := o.nonce
            accountId := 3001
            expireHour := o.l2ExpireHour })
    ∧ (createOrderPipeline 3001 testParams testMeta testPrice "cid-1").toOption.map
        PipelineOutput.msgHash
      = (createOrderPipeline 3001 testParams testMeta testPrice "cid-1").toOption.map
          (fun o => CalcLimitOrderHash o.hashInput) :=
  hash_commitment_tuple 3001 testParams testMeta testPrice "cid-1" testContract testCoin
    (by decide) (by decide) (by decide)

/-- Claim C6 counterexample: the price string is never parsed by
`CreateOrder` — a run whose price string "oops" is not a parseable
decimal still succeeds (no InvalidDecimal error, a commitment and hash
are produced), and the unparseable string is carried verbatim into the
request body. -/
theorem price_never_parsed_counterexample :
    NewFromString "oops" = none
    ∧ (createOrderPipeline 3001 badPriceParams testMeta testPrice "cid-1").isOk = true
    ∧ (createOrderPipeline 3001 badPriceParams testMeta testPrice "cid-1").toOption.map
        PipelineOutput.priceField = some "oops" := by
  refine ⟨by decide, by decide, by decide⟩

/-- Claim C6 (amended): `CreateOrder` fails with an InvalidDecimal-kind
error whenever the size string, or a non-empty fee-rate string, is not a
parseable decimal, and in that case no commitment, hash, or signature is
produced; the price string is not parsed at all — the numeric price
enters separately as the already-parsed `l2Price` argument and the price
string is only transmitted verbatim. -/
theorem invalid_decimal_errors (a : Int) (p : CreateOrderParams) (m : MetaData)
    (q : Dec) (cid : String) (contract : Contract) (coin : Coin)
    (hc : findContract m.ContractList p.ContractId = some contract)
    (hq : findCoin m.CoinList contract.QuoteCoinId = some coin)
    (hs : (HexToBigInteger contract.StarkExResolution).isSome = true)
    (hh : (HexToBigInteger coin.StarkExResolution).isSome = true) :
    (NewFromString p.Size = none →
      createOrderPipeline a p m q cid = .error .invalidSize)
    ∧ (contract.DefaultTakerFeeRate ≠ "" →
        NewFromString contract.DefaultTakerFeeRate = none →
        (NewFromString p.Size).isSome = true →
        createOrderPipeline a p m q cid = .error .invalidFeeRate) := by
  obtain ⟨sZ, hsZ⟩ := Option.isSome_iff_exists.mp hs
  obtain ⟨hZ, hhZ⟩ := Option.isSome_iff_exists.mp hh
  constructor
  · intro hbad
    unfold createOrderPipeline
    simp only [hc, hq, hsZ, hhZ, hbad]
  · intro hfee hbad hsize
    obtain ⟨size, hsz⟩ := Option.isSome_iff_exists.mp hsize
    have hfee' : (contract.DefaultTakerFeeRate == "") = false := by
      simpa using hfee
    unfold createOrderPipeline
    simp only [hc, hq, hsZ, hhZ, hsz, hfee', Bool.false_eq_true, if_false, hbad]

/-- Witness for C6 (amended): concrete runs with an unparseable size
string and an unparseable non-empty fee-rate string each fail with the
corresponding InvalidDecimal-kind error. -/
theorem invalid_decimal_errors_witness :
    createOrderPipeline 3001 badSizeParams testMeta testPrice "cid-1"
      = .error .invalidSize
    ∧ createOrderPipeline 3001 testParams badFeeMeta testPrice "cid-1"
      = .error .invalidFeeRate :=
  ⟨(invalid_decimal_errors 3001 badSizeParams testMeta testPrice "cid-1"
      testContract testCoin (by decide) (by decide) (by decide) (by decide)).1
      (by decide),
   (invalid_decimal_errors 3001 testParams badFeeMeta testPrice "cid-1"
      badFeeContract testCoin (by decide) (by decide) (by decide) (by decide)).2
      (by decide) (by decide) (by decide)⟩

/-- Claim C7: when the requested contract identifier is absent from the
supplied metadata contract list, or the contract's quote coin is absent
from the coin list, `CreateOrder` fails with a NotFound-kind error before
quantization — the pipeline returns the error and no hash input, hash or
signature is produced. -/
theorem lookup_not_found (a : Int) (p : CreateOrderParams) (m : MetaData)
    (q : Dec) (cid : String) :
    ((∀ c ∈ m.ContractList, c.ContractId ≠ p.ContractId) →
      createOrderPipeline a p m q cid = .error (.contractNotFound p.ContractId))
    ∧ (∀ contract, findContract m.ContractList p.ContractId = some contract →
        (∀ c ∈ m.CoinList, c.CoinId ≠ contract.QuoteCoinId) →
        createOrderPipeline a p m q cid = .error (.coinNotFound contract.QuoteCoinId)) := by
  constructor
  · intro habs
    have hnone : findContract m.ContractList p.ContractId = none := by
      rw [findContract, List.find?_eq_none]
      intro c hcmem
      simpa using habs c hcmem
    unfold createOrderPipeline
    simp only [hnone]
  · intro contract hc habs
    have hnone : findCoin m.CoinList contract.QuoteCoinId = none := by
      rw [findCoin, List.find?_eq_none]
      intro c hcmem
      simpa using habs c hcmem
    unfold createOrderPipeline
    simp only [hc, hnone]

/-- Witness for C7: a request naming the absent contract "999" fails with
contract-not-found, and a contract referencing the absent coin "777"
fails with coin-not-found. -/
theorem lookup_not_found_witness :
    createOrderPipeline 3001 unknownContractParams testMeta testPrice "cid-9"
      = .error (.contractNotFound "999")
    ∧ createOrderPipeline 3001 testParams orphanMeta testPrice "cid-9"
      = .error (.coinNotFound "777") :=
  ⟨(lookup_not_found 3001 unknownContractParams testMeta testPrice "cid-9").1
      (by decide),
   (lookup_not_found 3001 testParams orphanMeta testPrice "cid-9").2
      orphanContract (by decide) (by decide)⟩

/-- Claim C8 counterexample: CancelOrder's response interpretation does
not carry the error message or parameters the exchange supplied — two
rejection envelopes with the same code "FAIL" but different messages and
parameters classify to the identical error value, which is built from the
code alone; moreover an envelope without a string status code is treated
as success even though its status does not equal "SUCCESS". -/
theorem cancel_response_drops_detail_counterexample :
    classifyCancelResponse ⟨some "FAIL", some "boom", some "p1", []⟩
      = classifyCancelResponse ⟨some "FAIL", some "zap", none, [("k", "v")]⟩
    ∧ classifyCancelResponse ⟨some "FAIL", some "boom", some "p1", []⟩
      = .error (.rejected "FAIL")
    ∧ classifyCancelResponse ⟨none, some "boom", some "p1", []⟩
      = .ok ⟨none, some "boom", some "p1", []⟩ :=
  ⟨rfl, rfl, rfl⟩

/-- Claim C8 (amended): in CreateOrder, response interpretation succeeds
with the typed payload exactly when the status code equals "SUCCESS", and
otherwise fails carrying that code verbatim together with the structured
error parameters and, when non-empty, the error message; in CancelOrder
the rejection carries the status code alone, occurs exactly when a string
status code is present and differs from "SUCCESS", and an envelope
without a string code is returned as success. -/
theorem response_classification (r : ResultCreateOrder) (cr : CancelResult) :
    (r.Code = "SUCCESS" → classifyCreateResponse r = .ok r)
    ∧ (r.Code ≠ "SUCCESS" → r.ErrorMsg ≠ "" →
        classifyCreateResponse r = .error (.withMsg r.ErrorMsg r.Code r.ErrorParam))
    ∧ (r.Code ≠ "SUCCESS" → r.ErrorMsg = "" →
        classifyCreateResponse r = .error (.codeOnly r.Code r.ErrorParam))
    ∧ (∀ c, cr.code = some c → c ≠ "SUCCESS" →
        classifyCancelResponse cr = .error (.rejected c))
    ∧ (cr.code = some "SUCCESS" ∨ cr.code = none →
        classifyCancelResponse cr = .ok cr) := by
  refine ⟨?_, ?_, ?_, ?_, ?_⟩
  · intro h
    simp [classifyCreateResponse, h]
  · intro h1 h2
    simp [classifyCreateResponse, h1, h2]
  · intro h1 h2
    simp [classifyCreateResponse, h1, h2]
  · intro c hc hne
    simp [classifyCancelResponse, hc, hne]
  · rintro (h | h) <;> simp [classifyCancelResponse, h]

/-- Witness for C8 (amended): concrete envelopes exercising each branch
of both classifiers. -/
theorem response_classification_witness :
    classifyCreateResponse ⟨"SUCCESS", [], "", "payload"⟩
      = .ok ⟨"SUCCESS", [], "", "payload"⟩
    ∧ classifyCreateResponse ⟨"ORDER_REJECTED", [("reason", "px")], "bad px", ""⟩
      = .error (.withMsg "bad px" "ORDER_REJECTED" [("reason", "px")])
    ∧ classifyCreateResponse ⟨"ORDER_REJECTED", [("reason", "px")], "", ""⟩
      = .error (.codeOnly "ORDER_REJECTED" [("reason", "px")])
    ∧ classifyCancelResponse ⟨some "FAIL", none, none, []⟩
      = .error (.rejected "FAIL")
    ∧ classifyCancelResponse ⟨some "SUCCESS", none, none, []⟩
      = .ok ⟨some "SUCCESS", none, none, []⟩ :=
  ⟨(response_classification ⟨"SUCCESS", [], "", "payload"⟩
      ⟨none, none, none, []⟩).1 rfl,
   (response_classification ⟨"ORDER_REJECTED", [("reason", "px")], "bad px", ""⟩
      ⟨none, none, none, []⟩).2.1 (by decide) (by decide),
   (response_classification ⟨"ORDER_REJECTED", [("reason", "px")], "", ""⟩
      ⟨none, none, none, []⟩).2.2.1 (by decide) rfl,
   (response_classification ⟨"SUCCESS", [], "", ""⟩
      ⟨some "FAIL", none, none, []⟩).2.2.2.1 "FAIL" rfl (by decide),
   (response_classification ⟨"SUCCESS", [], "", ""⟩
      ⟨some "SUCCESS", none, none, []⟩).2.2.2.2 (Or.inl rfl)⟩

/-- Claim C9: when the caller leaves the time-in-force empty, CreateOrder
sets it before quantization and transmission — to immediate-or-cancel for
market orders and to good-til-cancel for limit orders — and a
caller-supplied time-in-force is never overridden; the time-in-force
carried by every successful run's output is exactly this selection. -/
theorem default_time_in_force_policy (tif : String) (ty : OrderType)
    (a : Int) (p : CreateOrderParams) (m : MetaData) (q : Dec) (cid : String) :
    (tif = "" → ty = .market →
      defaultTimeInForce tif ty = TimeInForceImmediateOrCancel)
    ∧ (tif = "" → ty = .limit →
      defaultTimeInForce tif ty = TimeInForceGoodTilCancel)
    ∧ (tif ≠ "" → defaultTimeInForce tif ty = tif)
    ∧ (createOrderPipeline a p m q cid).toOption.map PipelineOutput.timeInForce
      = (createOrderPipeline a p m q cid).toOption.map
          (fun _ => defaultTimeInForce p.TimeInForce p.Typ) := by
  refine ⟨?_, ?_, ?_, ?_⟩
  · intro h1 h2
    subst h1; subst h2
    simp [defaultTimeInForce]
  · intro h1 h2
    subst h1; subst h2
    simp [defaultTimeInForce]
  · intro h1
    simp [defaultTimeInForce, h1]
  · cases hcase : createOrderPipeline a p m q cid with
    | error e => simp [Except.toOption]
    | ok o =>
      obtain ⟨-, -, htif, -⟩ := createOrderPipeline_ok_fields _ _ _ _ _ _ hcase
      simp [Except.toOption, htif]

/-- Witness for C9: the default selection at concrete values and the
concrete successful run, whose caller left the time-in-force empty. -/
theorem default_time_in_force_policy_witness :
    defaultTimeInForce "" .market = TimeInForceImmediateOrCancel
    ∧ defaultTimeInForce "" .limit = TimeInForceGoodTilCancel
    ∧ defaultTimeInForce "FILL_OR_KILL" .market = "FILL_OR_KILL"
    ∧ (createOrderPipeline 3001 testParams testMeta testPrice "cid-1").toOption.map
        PipelineOutput.timeInForce
      = (createOrderPipeline 3001 testParams testMeta testPrice "cid-1").toOption.map
          (fun _ => defaultTimeInForce testParams.TimeInForce testParams.Typ) :=
  ⟨(default_time_in_force_policy "" .market 3001 testParams testMeta testPrice
      "cid-1").1 rfl rfl,
   (default_time_in_force_policy "" .limit 3001 testParams testMeta testPrice
      "cid-1").2.1 rfl rfl,
   (default_time_in_force_policy "FILL_OR_KILL" .market 3001 testParams testMeta
      testPrice "cid-1").2.2.1 (by decide),
   (default_time_in_force_policy "" .market 3001 testParams testMeta testPrice
      "cid-1").2.2.2⟩

/-- Claim C10: CancelOrder's endpoint and body are determined by the
first non-empty field in the precedence order OrderId, ClientId,
ContractId; when all three are empty it returns an error and builds no
request; and in the ContractId-only (cancel-all) case the target URL is
the bare path without the client's base-URL prefix — independent of the
base URL — unlike the other two branches. -/
theorem cancel_order_routing (baseURL : String) (a : Int) (p : CancelOrderParams) :
    (p.OrderId ≠ "" →
      cancelOrderRoute baseURL a p
        = .ok (baseURL ++ "/api/v1/private/order/cancelOrderById",
               .byOrderId (toString a) [p.OrderId]))
    ∧ (p.OrderId = "" → p.ClientId ≠ "" →
      cancelOrderRoute baseURL a p
        = .ok (baseURL ++ "/api/v1/private/order/cancelOrderByClientOrderId",
               .byClientOrderId (toString a) [p.ClientId]))
    ∧ (p.OrderId = "" → p.ClientId = "" → p.ContractId ≠ "" →
      cancelOrderRoute baseURL a p
        = .ok ("/api/v1/private/order/cancelAllOrder",
               .cancelAll (toString a) [p.ContractId])
      ∧ ∀ otherBase, cancelOrderRoute otherBase a p = cancelOrderRoute baseURL a p)
    ∧ (p.OrderId = "" → p.ClientId = "" → p.ContractId = "" →
      cancelOrderRoute baseURL a p
        = .error "must provide either OrderId, ClientId, or ContractId") := by
  refine ⟨?_, ?_, ?_, ?_⟩
  · intro h1
    simp [cancelOrderRoute, h1]
  · intro h1 h2
    simp [cancelOrderRoute, h1, h2]
  · intro h1 h2 h3
    constructor
    · simp [cancelOrderRoute, h1, h2, h3]
    · intro otherBase
      simp [cancelOrderRoute, h1, h2, h3]
  · intro h1 h2 h3
    simp [cancelOrderRoute, h1, h2, h3]

/-- Witness for C10: the four branches at concrete cancel parameters. -/
theorem cancel_order_routing_witness :
    cancelOrderRoute "https://x" 7 ⟨"o1", "c1", "k1"⟩
      = .ok ("https://x" ++ "/api/v1/private/order/cancelOrderById",
             .byOrderId (toString (7 : Int)) ["o1"])
    ∧ cancelOrderRoute "https://x" 7 ⟨"", "c1", "k1"⟩
      = .ok ("https://x" ++ "/api/v1/private/order/cancelOrderByClientOrderId",
             .byClientOrderId (toString (7 : Int)) ["c1"])
    ∧ (cancelOrderRoute "https://x" 7 ⟨"", "", "k1"⟩
        = .ok ("/api/v1/private/order/cancelAllOrder",
               .cancelAll (toString (7 : Int)) ["k1"])
      ∧ ∀ otherBase, cancelOrderRoute otherBase 7 ⟨"", "", "k1"⟩
          = cancelOrderRoute "https://x" 7 ⟨"", "", "k1"⟩)
    ∧ cancelOrderRoute "https://x" 7 ⟨"", "", ""⟩
      = .error "must provide either OrderId, ClientId, or ContractId" :=
  ⟨(cancel_order_routing "https://x" 7 ⟨"o1", "c1", "k1"⟩).1 (by decide),
   (cancel_order_routing "https://x" 7 ⟨"", "c1", "k1"⟩).2.1 rfl (by decide),
   (cancel_order_routing "https://x" 7 ⟨"", "", "k1"⟩).2.2.1 rfl rfl (by decide),
   (cancel_order_routing "https://x" 7 ⟨"", "", ""⟩).2.2.2 rfl rfl rfl⟩

end EdgexOrder
